import Mathlib

/-!
# Verification of `iwscanlog.py` (wifi scan-dump parsing and channel/bandwidth resolution)

Shallow embedding of the core of `src/iwscanlog.py`:

* `wifi_channel_plan` — the channel plan table (source lines 83–104);
* the Dialect A tokenizer and per-network resolver of `parse_iw_scan`
  (source lines 113–226);
* the Dialect B parser `parse_iwlist_scan` (source lines 234–277), modelled up to
  the `wlan_nets` list of per-AP field maps (the final pandas DataFrame
  renaming/`fmin`/`fmax` post-processing is not needed by any claim settled here).

Python strings are modelled over `List Char`; every Python string primitive used
by the source (`replace`, `rstrip`, `split`, slicing, `int(...)`, `int(float(...))`,
`int(..., 16)`) is given an explicit executable model below.  A Python statement
that can raise an uncaught exception (`KeyError`, `IndexError`, `ValueError`) is
modelled by returning `none`; since any uncaught exception aborts the whole
function in Python, the batch parsers propagate `none`.

`int(float(s))`-style conversions are modelled with exact decimal arithmetic.
For every literal value appearing in this development (`"5.18"`, `"2412"`,
`"-40.00"`, `"5180.0"`, …) the double-precision evaluation performed by Python
yields the same integer (e.g. `5.18 * 1000` rounds to exactly `5180.0`), so the
decimal model agrees with the source on all inputs used here.
-/

set_option maxRecDepth 100000

/-! ## Python string primitives over `List Char` -/

/-- Does `p` occur as a prefix of `s`?  (Python `s.startswith(p)` on the remainder.) -/
def lcStartsWith : List Char → List Char → Bool
  | _, [] => true
  | [], _ :: _ => false
  | c :: cs, p :: ps => c == p && lcStartsWith cs ps

/-- If `pat` is a prefix of `s`, return the remainder of `s` after it. -/
def lcDropPrefix? : List Char → List Char → Option (List Char)
  | s, [] => some s
  | [], _ :: _ => none
  | c :: cs, p :: ps => if c == p then lcDropPrefix? cs ps else none

/-- Does `pat` occur anywhere in `s`?  (Python `pat in s`.) -/
def lcContains (s pat : List Char) : Bool :=
  match s with
  | [] => lcStartsWith [] pat
  | _ :: cs => lcStartsWith s pat || lcContains cs pat

/-- Fuel-driven worker for `lcReplace`.  Each step consumes at least one input
character when the pattern is non-empty, so fuel `s.length + 1` always suffices. -/
def lcReplaceAux (pat rep : List Char) : Nat → List Char → List Char
  | 0, s => s
  | _ + 1, [] => []
  | fuel + 1, c :: cs =>
    match lcDropPrefix? (c :: cs) pat with
    | some rest => rep ++ lcReplaceAux pat rep fuel rest
    | none => c :: lcReplaceAux pat rep fuel cs

/-- Python `s.replace(pat, rep)`: replace every (leftmost, non-overlapping)
occurrence.  All patterns used by the source are non-empty. -/
def lcReplace (s pat rep : List Char) : List Char :=
  lcReplaceAux pat rep (s.length + 1) s

/-- Fuel-driven worker for `lcSplitStr`. -/
def lcSplitStrAux (sep : List Char) : Nat → List Char → List (List Char)
  | 0, s => [s]
  | _ + 1, [] => [[]]
  | fuel + 1, c :: cs =>
    match lcDropPrefix? (c :: cs) sep with
    | some rest =>
      [] :: lcSplitStrAux sep fuel rest
    | none =>
      match lcSplitStrAux sep fuel cs with
      | [] => [[c]]
      | part :: parts => (c :: part) :: parts

/-- Python `s.split(sep)` for a non-empty separator: keeps empty parts,
`"".split(sep) == [""]`. -/
def lcSplitStr (s sep : List Char) : List (List Char) :=
  lcSplitStrAux sep (s.length + 1) s

/-- Python `s.split(sep, 1)` followed by a 2-tuple unpack: `none` when the
separator does not occur (Python raises `ValueError` on the unpack). -/
def lcSplitOnce (sep : List Char) : List Char → Option (List Char × List Char)
  | [] => none
  | c :: cs =>
    match lcDropPrefix? (c :: cs) sep with
    | some rest => some ([], rest)
    | none =>
      match lcSplitOnce sep cs with
      | none => none
      | some (l, r) => some (c :: l, r)

/-- Python whitespace (the characters stripped by `str.rstrip()`). -/
def isPySpace (c : Char) : Bool :=
  c == ' ' || c == '\t' || c == '\n' || c == '\r' || c == '\x0b' || c == '\x0c'

/-- Python `s.rstrip()`. -/
def lcRstrip (s : List Char) : List Char :=
  (s.reverse.dropWhile isPySpace).reverse

/-- Python `s.strip()`. -/
def lcStrip (s : List Char) : List Char :=
  lcRstrip (s.dropWhile isPySpace)

/-- Decimal digit value of a character, if it is one. -/
def digitVal? (c : Char) : Option Nat :=
  if '0' ≤ c ∧ c ≤ '9' then some (c.toNat - '0'.toNat) else none

/-- Hexadecimal digit value of a character, if it is one. -/
def hexVal? (c : Char) : Option Nat :=
  if '0' ≤ c ∧ c ≤ '9' then some (c.toNat - '0'.toNat)
  else if 'a' ≤ c ∧ c ≤ 'f' then some (c.toNat - 'a'.toNat + 10)
  else if 'A' ≤ c ∧ c ≤ 'F' then some (c.toNat - 'A'.toNat + 10)
  else none

/-- Value of a non-empty list of decimal digits; `none` on an empty list or a
non-digit character (Python `int` raises `ValueError`). -/
def digitsToNat? (s : List Char) : Option Nat :=
  match s with
  | [] => none
  | _ :: _ =>
    s.foldl (fun acc c =>
      match acc, digitVal? c with
      | some a, some d => some (a * 10 + d)
      | _, _ => none) (some 0)

/-- Value of a non-empty list of hex digits (Python `int(s, 16)` without sign). -/
def hexDigitsToNat? (s : List Char) : Option Nat :=
  match s with
  | [] => none
  | _ :: _ =>
    s.foldl (fun acc c =>
      match acc, hexVal? c with
      | some a, some d => some (a * 16 + d)
      | _, _ => none) (some 0)

/-- Python `int(s)` on a decimal string: surrounding whitespace, optional sign,
non-empty digit run.  `none` models `ValueError`. -/
def pyInt? (s : String) : Option Int :=
  match lcStrip s.data with
  | '+' :: ds => (digitsToNat? ds).map (Int.ofNat ·)
  | '-' :: ds => (digitsToNat? ds).map (fun n => -(n : Int))
  | ds => (digitsToNat? ds).map (Int.ofNat ·)

/-- Decimal-string parser: sign and the integer-part / fractional-part digit
lists of `s` (`"5.18"` ↦ `(1, [5], [1,8])`).  At least one digit must be
present overall.  Exponent forms do not occur in the modelled inputs. -/
def pyDecimalParts? (s : String) : Option (Int × List Char × List Char) :=
  let t := lcStrip s.data
  let core : List Char → Option (List Char × List Char) := fun u =>
    match lcSplitStr u ['.'] with
    | [ip] => if ip ≠ [] ∧ (digitsToNat? ip).isSome then some (ip, []) else none
    | [ip, fp] =>
      if (ip ≠ [] ∨ fp ≠ []) ∧
         (ip = [] ∨ (digitsToNat? ip).isSome) ∧
         (fp = [] ∨ (digitsToNat? fp).isSome) then some (ip, fp) else none
    | _ => none
  match t with
  | '+' :: u => (core u).map (fun (ip, fp) => (1, ip, fp))
  | '-' :: u => (core u).map (fun (ip, fp) => (-1, ip, fp))
  | u => (core u).map (fun (ip, fp) => (1, ip, fp))

/-- Python `int(float(s))`: parse a decimal and truncate toward zero, which is
the sign times the integer part. -/
def pyIntFloat? (s : String) : Option Int :=
  (pyDecimalParts? s).map (fun (sgn, ip, _) =>
    sgn * (Int.ofNat ((digitsToNat? ip).getD 0)))

/-- Python `int(float(s) * 1000)` under exact decimal arithmetic: shift the
decimal point three places and truncate toward zero. -/
def pyFloatTimes1000Int? (s : String) : Option Int :=
  (pyDecimalParts? s).map (fun (sgn, ip, fp) =>
    let fp3 := (fp ++ ['0', '0', '0']).take 3
    sgn * (Int.ofNat ((digitsToNat? ip).getD 0 * 1000 + (digitsToNat? fp3).getD 0)))

/-- Python `int(s, 16)` restricted to unsigned hex strings (as produced from MAC
addresses). -/
def pyHexNat? (s : String) : Option Nat :=
  hexDigitsToNat? (lcStrip s.data)

/-! String-level wrappers (the tokenizers work on `String`s). -/

/-- Python `s.replace(pat, rep)`. -/
def pyReplace (s pat rep : String) : String :=
  ⟨lcReplace s.data pat.data rep.data⟩

/-- Python `s.rstrip()`. -/
def pyRstrip (s : String) : String :=
  ⟨lcRstrip s.data⟩

/-- Python `s.startswith(p)`. -/
def pyStartsWith (s p : String) : Bool :=
  lcStartsWith s.data p.data

/-- Python `p in s`. -/
def pyContains (s p : String) : Bool :=
  lcContains s.data p.data

/-- Python `s[a:]` (character slice). -/
def pyDrop (s : String) (a : Nat) : String :=
  ⟨s.data.drop a⟩

/-- Python `s[a:b]` for `0 ≤ a ≤ b` (character slice). -/
def pySlice (s : String) (a b : Nat) : String :=
  ⟨(s.data.take b).drop a⟩

/-- Python `s.split(sep)` for a non-empty separator. -/
def pySplit (s sep : String) : List String :=
  (lcSplitStr s.data sep.data).map (⟨·⟩)

/-- The line-boundary characters of Python `str.splitlines()`: `\n`, `\r`,
`\v` (0x0b), `\f` (0x0c), the separators 0x1c–0x1e, 0x85, and U+2028/U+2029. -/
def isPyLineBreak (c : Char) : Bool :=
  c == '\n' || c == '\r' || c == '\x0b' || c == '\x0c' ||
  c == '\x1c' || c == '\x1d' || c == '\x1e' || c == '\x85' ||
  c == '\u2028' || c == '\u2029'

/-- Worker for `pySplitlines`: `acc` holds the current line in reverse.  Every
line boundary emits the text before it (`"\r\n"` counts as one boundary); a
non-empty remainder after the last boundary is the final line, so a trailing
boundary adds no empty line and `"".splitlines() == []`. -/
def pySplitlinesAux (acc : List Char) : List Char → List (List Char)
  | [] => if acc.isEmpty then [] else [acc.reverse]
  | '\r' :: '\n' :: rest => acc.reverse :: pySplitlinesAux [] rest
  | c :: rest =>
    if isPyLineBreak c then acc.reverse :: pySplitlinesAux [] rest
    else pySplitlinesAux (c :: acc) rest

/-- Python `s.splitlines()`. -/
def pySplitlines (s : String) : List String :=
  (pySplitlinesAux [] s.data).map (⟨·⟩)

/-- ASCII `str.lower()` (MAC addresses only contain hex digits and colons). -/
def pyLower (s : String) : String :=
  ⟨s.data.map Char.toLower⟩

/-! ## The channel plan table (`wifi_channel_plan`, source lines 83–104) -/

/-- Model of `np.arange(a, b + 1, step)` for `a ≤ b`: the list `[a, a+step, …]` up to `b`. -/
def npArange (a b step : Nat) : List Nat :=
  (List.range ((b - a) / step + 1)).map (fun i => a + i * step)

/-- One row of the channel plan table: channel number (the index), center
frequency `Fc`, bandwidth `BW`, and the derived band edges. -/
structure PlanEntry where
  channel : Nat
  Fc : Nat
  BW : Nat
  fmin : Nat
  fmax : Nat
deriving DecidableEq, Repr

/-- The `(channel, Fc, BW)` rows of the five concatenated sub-tables
`df0 … df4`, in source order, before the 5350–5470 MHz gap is removed. -/
def planRows : List (Nat × Nat × Nat) :=
  ((npArange 1 14 1).map (fun c => (c, 2412 + (c - 1) * 5, 20))) ++
  ((npArange 32 144 4 ++ npArange 149 177 4).map (fun c => (c, 5160 + (c - 32) * 5, 20))) ++
  ((npArange 38 142 8 ++ npArange 151 175 8).map (fun c => (c, 5190 + (c - 38) * 5, 40))) ++
  ((npArange 42 138 16 ++ npArange 155 171 16).map (fun c => (c, 5210 + (c - 42) * 5, 80))) ++
  ((npArange 50 114 32 ++ [163]).map (fun c => (c, 5250 + (c - 50) * 5, 160)))

/-- The table `wifi_channel_plan()`: concatenate the sub-tables, drop every channel in
`[70, 94]` (nothing between 5350 and 5470 MHz), and add `fmin`/`fmax`. -/
def wifi_channel_plan : List PlanEntry :=
  (planRows.filter (fun r => ¬(70 ≤ r.1 ∧ r.1 ≤ 94))).map
    (fun r => { channel := r.1, Fc := r.2.1, BW := r.2.2,
                fmin := r.2.1 - r.2.2 / 2, fmax := r.2.1 + r.2.2 / 2 })

/-- Lookup `fplan[fplan.Fc == f].index[0]` as a row lookup: the first plan row whose
center frequency is `f`; `none` models the `IndexError` raised on an empty
selection. -/
def planFcFind (f : Int) : Option PlanEntry :=
  wifi_channel_plan.find? (fun e => (e.Fc : Int) == f)

/-- Lookup `fplan.loc[c]` guarded by `c in fplan.index`: the first plan row with
channel number `c`, if any. -/
def planLoc (c : Int) : Option PlanEntry :=
  wifi_channel_plan.find? (fun e => (e.channel : Int) == c)

/-! ## Dialect A per-AP field map (`wlans[-1]` dictionary in `parse_iw_scan`) -/

/-- The per-AP dictionary built by the Dialect A tokenizer (source lines
120–150).  Every key the program ever stores or reads is a field; `none` means
the key is absent.  The HT/VHT annotation values are stored as the raw strings
the tokenizer produced, exactly as in the source (the resolver converts them
with `int(...)` at use sites). -/
structure RawNet where
  MAC : String := ""
  ID : Nat := 0
  freq_20 : Option Int := none
  Signal : Option Int := none
  SSID : Option String := none
  dsParamSet : Option Int := none
  country : Option String := none
  environment : Option String := none
  channels : Option String := none
  htPrimaryChannel : Option String := none
  htSecondaryChannelOffset : Option String := none
  htStaChannelWidth : Option String := none
  vhtChannelWidth : Option String := none
  vhtCenterFreqSegment1 : Option String := none
  vhtCenterFreqSegment2 : Option String := none
deriving DecidableEq, Repr

/-! ## The channel/bandwidth resolver (body of the `for net in wlans` loop,
source lines 151–225) -/

/-- Resolver state after the legacy (and HT) phase: the current dictionary,
the legacy channel number, and the running bandwidth / center estimates. -/
structure HtState where
  net : RawNet
  channel_20 : Nat
  BW : Int
  Fc : Int
  freq_40 : Option Int
deriving DecidableEq, Repr

/-- Source lines 152–158: `BW = 20`;
`net["channel_20"] = fplan[fplan.Fc == net["freq_20"]].index[0]`;
`net["Fc"] = net["freq_20"]`; then the debug copy `net2 = net.copy()` with
`del net2["Signal"]`.  `none` models the uncaught `KeyError` when `freq_20` or
`Signal` is absent and the `IndexError` when no plan row matches the frequency.
(The content of the `dbg` string is not modelled; only the `KeyError` its
construction can raise is.) -/
def legacy_step (net : RawNet) : Option HtState :=
  match net.freq_20 with
  | none => none
  | some f20 =>
    match planFcFind f20 with
    | none => none
    | some e =>
      match net.Signal with
      | none => none
      | some _ => some { net := net, channel_20 := e.channel, BW := 20, Fc := f20, freq_40 := none }

/-- Source lines 159–178: the HT branch.  Runs only when the key
`"HT primary channel"` is present.  When the declared channel is in the plan
table the cross-check `assert`s are caught (`try/except` with a log line), the
`"HT primary channel"` and (when present) `"DS Parameter set"` keys are
deleted, and if `"HT STA channel width"` is `"any"` the bonded center becomes
the *declared* channel's plan center ± 10; the offset and width keys are then
deleted (an absent key raises `KeyError`, i.e. `none`).  When the declared
channel is not in the plan table the branch only logs and leaves everything
untouched. -/
def ht_step (st : HtState) : Option HtState :=
  match st.net.htPrimaryChannel with
  | none => some st
  | some ps =>
    match pyInt? ps with
    | none => none
    | some p =>
      match planLoc p with
      | none => some st
      | some chanp =>
        let n1 := { st.net with htPrimaryChannel := none }
        let n2 := match n1.dsParamSet with
          | some _ => { n1 with dsParamSet := none }
          | none => n1
        match n2.htStaChannelWidth with
        | none => none
        | some w =>
          let bonded : Option (Int × Int × Option Int) :=
            if w = "any" then
              match n2.htSecondaryChannelOffset with
              | none => none
              | some off =>
                let freq := (chanp.Fc : Int) + (if off = "above" then 10 else -10)
                some (40, freq, some freq)
            else some (st.BW, st.Fc, st.freq_40)
          match bonded with
          | none => none
          | some (bw, fc, f40) =>
            match n2.htSecondaryChannelOffset with
            | none => none
            | some _ =>
              some { net := { n2 with
                                htSecondaryChannelOffset := none,
                                htStaChannelWidth := none },
                     channel_20 := st.channel_20, BW := bw, Fc := fc, freq_40 := f40 }

/-- The HT-or-legacy estimate: legacy lookup followed by the HT branch. -/
def ht_estimate (net : RawNet) : Option HtState :=
  (legacy_step net).bind ht_step

/-- Resolver state after the VHT phase. -/
structure VhtOut where
  net : RawNet
  channel_20 : Nat
  BW : Int
  Fc : Int
  freq_40 : Option Int
  freq_VHT : Option Int
  Fc2_VHT : Option Int
deriving DecidableEq, Repr

/-- Extraction `BW_code = int(net["VHT channel width"][0])` (source line 181): the first
character of the width string as a decimal digit; `none` models the
`IndexError` on an empty string and the `ValueError` on a non-digit. -/
def vht_code? (ws : String) : Option Nat :=
  match ws.data with
  | [] => none
  | c :: _ => digitVal? c

/-- Source lines 180–210: the VHT branch.  Runs only when both
`"VHT channel width"` and `"VHT center freq segment 1"` are present.
`BW_code = int(width[0])` and `int(segment1)` are computed first (`none` models
`IndexError`/`ValueError`).  When the segment-1 channel is in the plan table,
is `> 32` and the code is positive, the bandwidth becomes 80 (code 1) or 160
and the center becomes that channel's plan center; a present segment 2 that is
itself in the plan then either forces 160 MHz (native-160 or contiguous-80
cases) or, in the unhandled non-contiguous case, is recorded in `Fc2_VHT`.
Finally all three VHT keys are deleted — `del net["VHT center freq segment 2"]`
raises `KeyError` (`none`) when that key is absent. -/
def vht_step (st : HtState) : Option VhtOut :=
  match st.net.vhtChannelWidth, st.net.vhtCenterFreqSegment1 with
  | some ws, some s1s =>
    match vht_code? ws with
    | none => none
    | some code =>
      match pyInt? s1s with
      | none => none
      | some s1 =>
        let inner : Option (Int × Int × Option Int × Option Int) :=
          match planLoc s1 with
          | some chan =>
            if s1 > 32 ∧ code > 0 then
              let BW0 : Int := if code = 1 then 80 else 160
              let seg2res : Option (Int × Int × Option Int) :=
                match st.net.vhtCenterFreqSegment2 with
                | none => some (BW0, (chan.Fc : Int), none)
                | some s2s =>
                  match pyInt? s2s with
                  | none => none
                  | some s2 =>
                    match planLoc s2 with
                    | none => some (BW0, (chan.Fc : Int), none)
                    | some chan2 =>
                      if chan2.BW = 160 then some (160, (chan2.Fc : Int), none)
                      else if chan2.BW = 80 ∧ (chan2.Fc : Int) = (chan.Fc : Int) + 80 then
                        some (160, (chan.Fc : Int) + 40, none)
                      else some (BW0, (chan.Fc : Int), some ((chan2.Fc : Int)))
              match seg2res with
              | none => none
              | some (bw, fr, d) => some (bw, fr, some fr, d)
            else some (st.BW, st.Fc, none, none)
          | none => some (st.BW, st.Fc, none, none)
        match inner with
        | none => none
        | some (bw, fc, fV, d) =>
          match st.net.vhtCenterFreqSegment2 with
          | none => none
          | some _ =>
            some { net := { st.net with
                              vhtCenterFreqSegment2 := none,
                              vhtCenterFreqSegment1 := none,
                              vhtChannelWidth := none },
                   channel_20 := st.channel_20, BW := bw, Fc := fc,
                   freq_40 := st.freq_40, freq_VHT := fV, Fc2_VHT := d }
  | _, _ =>
    some { net := st.net, channel_20 := st.channel_20, BW := st.BW, Fc := st.Fc,
           freq_40 := st.freq_40, freq_VHT := none, Fc2_VHT := none }

/-- One fully resolved record: the remaining dictionary keys plus the resolved
spectrum fields (`net["chanbw"] = BW` at line 211 and the DataFrame-level
`fmin`/`fmax` columns at lines 223–224, which are per-row arithmetic). -/
structure ResolvedNet where
  net : RawNet
  channel_20 : Nat
  Fc : Int
  chanbw : Int
  freq_40 : Option Int
  freq_VHT : Option Int
  Fc2_VHT : Option Int
  fmin : Int
  fmax : Int
deriving DecidableEq, Repr

/-- Finalization `net["chanbw"] = BW`; `fmin = Fc - chanbw // 2`;
`fmax = Fc + chanbw // 2`. -/
def finalize_net (v : VhtOut) : ResolvedNet :=
  { net := v.net, channel_20 := v.channel_20, Fc := v.Fc, chanbw := v.BW,
    freq_40 := v.freq_40, freq_VHT := v.freq_VHT, Fc2_VHT := v.Fc2_VHT,
    fmin := v.Fc - v.BW / 2, fmax := v.Fc + v.BW / 2 }

/-- The whole per-net body of the resolution loop (source lines 151–225).
`none` models any uncaught exception, which in Python aborts the entire
`parse_iw_scan` call. -/
def resolve_net (net : RawNet) : Option ResolvedNet :=
  (ht_estimate net).bind (fun st => (vht_step st).map finalize_net)

/-! ## Dialect A tokenizer (`parse_iw_scan`, source lines 117–150) -/

/-- Tokenizer state: the list of open AP dictionaries (kept in *reverse*
order, so the head is `wlans[-1]`) and the `HTMODE` flag. -/
structure IwState where
  wlans : List RawNet
  htmode : Nat
deriving DecidableEq, Repr

/-- Apply an update to `wlans[-1]`; `none` models the `IndexError` raised when
the list is still empty, or any exception raised while computing the value. -/
def withLast (st : IwState) (f : RawNet → Option RawNet) : Option IwState :=
  match st.wlans with
  | [] => none
  | n :: rest => (f n).map (fun n' => { st with wlans := n' :: rest })

/-- One iteration of the `for line in wlanstr.splitlines()` loop (source lines
120–150): `line = line.replace("\t", "").rstrip()` followed by the
`if/elif` chain.  `none` models any uncaught exception. -/
def iw_step (st : IwState) (rawline : String) : Option IwState :=
  let line := pyRstrip (pyReplace rawline "\t" "")
  if pyStartsWith line "BSS " && pyContains line "(on " then
    let macs := pySlice line 4 21
    match pyHexNat? (pyReplace macs ":" "") with
    | none => none
    | some idv => some { st with wlans := { MAC := macs, ID := idv } :: st.wlans }
  else if pyStartsWith line "freq: " then
    withLast st (fun n => (pyIntFloat? (pyDrop line 6)).map (fun v => { n with freq_20 := some v }))
  else if pyStartsWith line "signal: " then
    withLast st (fun n =>
      (pyIntFloat? (pySlice line 8 (line.data.length - 4))).map (fun v => { n with Signal := some v }))
  else if pyStartsWith line "SSID: " then
    withLast st (fun n => some { n with SSID := some (pyDrop line 6) })
  else if pyStartsWith line "DS Parameter set:" then
    withLast st (fun n => (pyInt? (pyDrop line 26)).map (fun v => { n with dsParamSet := some v }))
  else if pyStartsWith line "Country:" then
    match pySplit (pyReplace (pyReplace line "Country: " "") "Environment: " "|") "|" with
    | c :: e :: _ => withLast st (fun n => some { n with country := some c, environment := some e })
    | _ => none
  else if pyStartsWith line "Channels " then
    withLast st (fun n => some { n with channels := some (pyDrop line 9) })
  else if line = "HT operation:" then
    some { st with htmode := 1 }
  else if st.htmode == 1 && (pyStartsWith line " * primary channel:" ||
           pyStartsWith line " * secondary channel offset:" ||
           pyStartsWith line " * STA channel width:") then
    match pySplit (pyReplace (pyReplace line " * " "") ": " ":") ":" with
    | [k, v] =>
      withLast st (fun n =>
        if k = "primary channel" then some { n with htPrimaryChannel := some v }
        else if k = "secondary channel offset" then some { n with htSecondaryChannelOffset := some v }
        else if k = "STA channel width" then some { n with htStaChannelWidth := some v }
        else some n)
    | _ => none
  else if line = "VHT operation:" then
    some { st with htmode := 2 }
  else if st.htmode == 2 && (pyStartsWith line " * channel width: " ||
           pyStartsWith line " * center freq segment") then
    match pySplit (pyReplace (pyReplace line " * " "") ": " ":") ":" with
    | [k, v] =>
      withLast st (fun n =>
        if k = "channel width" then some { n with vhtChannelWidth := some v }
        else if k = "center freq segment 1" then some { n with vhtCenterFreqSegment1 := some v }
        else if k = "center freq segment 2" then some { n with vhtCenterFreqSegment2 := some v }
        else some n)
    | _ => none
  else
    some st

/-- Fold `iw_step` over the lines of the dump. -/
def iw_lines : IwState → List String → Option IwState
  | st, [] => some st
  | st, l :: ls =>
    match iw_step st l with
    | none => none
    | some st2 => iw_lines st2 ls

/-- The function `parse_iw_scan(wlanstr)` (source lines 113–226): tokenize the dump, then
run the resolution loop over every collected block.  In Python an exception in
any block aborts the whole call, so a `none` from any `resolve_net` makes the
whole result `none`. -/
def parse_iw_scan (s : String) : Option (List ResolvedNet) :=
  match iw_lines ⟨[], 0⟩ (pySplitlines s) with
  | none => none
  | some st => (st.wlans.reverse).mapM resolve_net

/-! ## Dialect B (`parse_iwlist_scan`, source lines 234–277) -/

/-- A value in a Dialect B per-AP field map: Python stores either an `int` or a
string under each key. -/
inductive BVal where
  | i (n : Int)
  | s (v : String)
deriving DecidableEq, Repr

/-- A Dialect B per-AP dictionary: insertion-ordered key/value pairs. -/
abbrev BNet := List (String × BVal)

/-- Python `d[k] = v`: update in place if the key exists, else append. -/
def dictInsert : BNet → String → BVal → BNet
  | [], k, v => [(k, v)]
  | (k', v') :: rest, k, v =>
    if k' = k then (k', v) :: rest else (k', v') :: dictInsert rest k v

/-- Python `d.get(k)`. -/
def dictGet? (d : BNet) (k : String) : Option BVal :=
  (d.find? (fun kv => kv.1 == k)).map (·.2)

/-- Worker for `re.sub('\n +', '\n', wlans)`: after every newline, drop the
following run of spaces. -/
def collapseNlSpacesAux : Nat → List Char → List Char
  | 0, s => s
  | _ + 1, [] => []
  | fuel + 1, c :: cs =>
    if c = '\n' then c :: collapseNlSpacesAux fuel (cs.dropWhile (· == ' '))
    else c :: collapseNlSpacesAux fuel cs

/-- Substitution `re.sub('\n +', '\n', wlans)` (source line 235). -/
def collapseNlSpaces (s : String) : String :=
  ⟨collapseNlSpacesAux (s.data.length + 1) s.data⟩

/-- One line's contribution to `re.sub('\n.* - Address:', '\nAddress:', wlans)`:
`.*` does not cross newlines and is greedy, so within a line that contains
`" - Address:"` everything up to the *last* occurrence is replaced by
`"Address:"`. -/
def addressRewriteLine (l : List Char) : List Char :=
  match lcSplitStr l (" - Address:".data) with
  | [_] => l
  | parts => ("Address:".data) ++ parts.getLastD []

/-- Substitution `re.sub('\n.* - Address:', '\nAddress:', wlans)` (source line 236): every
match starts at a newline, so the first line is never rewritten and each later
line is rewritten independently. -/
def addressRewrite (s : String) : String :=
  match lcSplitStr s.data ['\n'] with
  | [] => s
  | first :: rest => ⟨List.intercalate ['\n'] (first :: rest.map addressRewriteLine)⟩

/-- The full text-mangling pipeline of `parse_iwlist_scan` (source lines
235–239): the two regex substitutions followed by the `.replace` chain, in
source order. -/
def iwlist_preprocess (s : String) : String :=
  let s1 := addressRewrite (collapseNlSpaces s)
  pyReplace (pyReplace (pyReplace (pyReplace (pyReplace (pyReplace (pyReplace (pyReplace (pyReplace
    (pyReplace (pyReplace s1
      "Extra:" "")
      " level" "")
      "=" ":")
      "(Channel" "\nChannel:")
      ")" "")
      "\"" "")
      ": " ":")
      " Mhz" "")
      " dBm" "")
      "  Signal" "\nSignal")
      "  Noise" "\nNoise"

/-- The list `wlan_strlist = wlans.split('\n')` applied to the preprocessed text. -/
def parse_iwlist_lines (s : String) : List String :=
  (lcSplitStr (iwlist_preprocess s).data ['\n']).map (⟨·⟩)

/-- The retained-field allow-list (source line 242). -/
def iwlist_wordlist : List String :=
  ["MAC", "Address", "ESSID", "Frequency", "Signal", "center1", "chanbw", "Channel"]

/-- One iteration of the Dialect B line loop (source lines 243–264), over the
list of open dictionaries in reverse order (head is `wlan_nets[-1]`).
`none` models the uncaught `ValueError`/`IndexError`/`KeyError` exceptions:
a retained line with no colon, a value that fails its `int` conversion, or a
field line arriving before any `Address` block has been opened. -/
def iwlist_step (nets : List BNet) (rawline : String) : Option (List BNet) :=
  let line := pyRstrip rawline
  if pyStartsWith line "Address" then
    match lcSplitOnce [':'] line.data with
    | none => none
    | some (_, vl) =>
      let v : String := ⟨vl⟩
      match pyHexNat? (pyReplace v ":" "") with
      | none => none
      | some idv =>
        some ((dictInsert (dictInsert [] "MAC" (.s (pyLower v))) "ID" (.i (Int.ofNat idv))) :: nets)
  else
    if !(iwlist_wordlist.any (fun w => pyStartsWith line w)) then some nets
    else
      match lcSplitOnce [':'] line.data with
      | none => none
      | some (kl, vl) =>
        let k : String := ⟨kl⟩
        let v : String := ⟨vl⟩
        let bv : Option BVal :=
          if k = "center1" ∨ k = "chanbw" ∨ k = "Signal" ∨ k = "Channel" then
            (pyInt? v).map (.i ·)
          else if k = "Quality" then (pyInt? (pyReplace v "/94" "")).map (.i ·)
          else if k = "Frequency" then (pyFloatTimes1000Int? (pyReplace v " GHz" "")).map (.i ·)
          else some (.s v)
        match bv with
        | none => none
        | some bvv =>
          match nets with
          | [] => none
          | cur :: rest => some (dictInsert cur k bvv :: rest)

/-- Fold `iwlist_step` over the preprocessed lines. -/
def iwlist_fold : List BNet → List String → Option (List BNet)
  | nets, [] => some nets
  | nets, l :: ls =>
    match iwlist_step nets l with
    | none => none
    | some nets2 => iwlist_fold nets2 ls

/-- The function `parse_iwlist_scan(wlans)` (source lines 234–277), modelled up to the
`wlan_nets` list of per-AP dictionaries in input order.  (The subsequent pandas
DataFrame post-processing — `set_index`, column renaming, `fmin`/`fmax` — runs
only on a non-empty result and is not needed by the claims settled here; on an
empty `wlan_nets` the function returns the empty DataFrame.) -/
def parse_iwlist_scan (s : String) : Option (List BNet) :=
  (iwlist_fold [] (parse_iwlist_lines s)).map List.reverse

/-! ## Concrete inputs used by the claims -/

/-- A block whose primary frequency 5000 MHz matches no plan-table center
frequency (as iw reports for any 6 GHz access point, e.g. 5955 MHz: the plan
table holds no 6 GHz band either). -/
def c1_net : RawNet :=
  { freq_20 := some 5000, Signal := some (-40) }

/-- A well-formed legacy-only Dialect A dump with a single block. -/
def c2_dump_good : String :=
  "BSS aa:bb:cc:dd:ee:ff (on wlo1)\n\tfreq: 2412\n\tsignal: -40.00 dBm\n\tSSID: testnet"

/-- The same dump followed by a second block that lacks the mandatory
`freq:` field. -/
def c2_dump_bad : String :=
  c2_dump_good ++ "\nBSS 11:22:33:44:55:66 (on wlo1)\n\tSSID: other"

/-- HT block whose declared primary channel (40) differs from the legacy
channel derived from `freq_20 = 5180` (channel 36): the cross-check mismatch
case. -/
def c3_counter_net : RawNet :=
  { freq_20 := some 5180, Signal := some (-40), htPrimaryChannel := some "40",
    htSecondaryChannelOffset := some "above", htStaChannelWidth := some "any" }

/-- The claim's "in particular" HT block: primary channel 36, width "any",
offset "above". -/
def c3_example_net : RawNet :=
  { freq_20 := some 5180, Signal := some (-40), htPrimaryChannel := some "36",
    htSecondaryChannelOffset := some "above", htStaChannelWidth := some "any" }

/-- VHT block with bandwidth code 0 whose segment 1 (channel 42, an 80 MHz
channel, center 5210) and segment 2 (channel 58, an 80 MHz channel, center
5290 = 5210 + 80) are contiguous. -/
def c4_counter_net : RawNet :=
  { freq_20 := some 5180, Signal := some (-40), vhtChannelWidth := some "0",
    vhtCenterFreqSegment1 := some "42", vhtCenterFreqSegment2 := some "58" }

/-- The same contiguous-segments block with bandwidth code 1. -/
def c4_example_net : RawNet :=
  { freq_20 := some 5180, Signal := some (-40), vhtChannelWidth := some "1 (80 MHz)",
    vhtCenterFreqSegment1 := some "42", vhtCenterFreqSegment2 := some "58" }

/-- VHT block with bandwidth code 0 whose segment 1 (channel 42, center 5210)
and segment 2 (channel 155, an 80 MHz channel, center 5775 ≠ 5290) are
non-contiguous. -/
def c5_counter_net : RawNet :=
  { freq_20 := some 5180, Signal := some (-40), vhtChannelWidth := some "0",
    vhtCenterFreqSegment1 := some "42", vhtCenterFreqSegment2 := some "155" }

/-- The same non-contiguous block with bandwidth code 1. -/
def c5_example_net : RawNet :=
  { freq_20 := some 5180, Signal := some (-40), vhtChannelWidth := some "1 (80 MHz)",
    vhtCenterFreqSegment1 := some "42", vhtCenterFreqSegment2 := some "155" }

/-- A Dialect B (iwlist-style) dump with a frequency field `5.18 GHz` and a
quality field `60/94`. -/
def c6_input : String :=
  "ath0 Scan completed :\n          Cell 01 - Address: 00:11:22:33:44:55\n          ESSID:\"myap\"\n          Frequency:5.18 GHz (Channel 36)\n          Quality=60/94  Signal level=-40 dBm\n          Extra:center1=5180\n          Extra:chanbw=20\n"

/-- A block carrying a full HT annotation whose declared primary channel 99 is
not in the plan table. -/
def c7_counter_net : RawNet :=
  { freq_20 := some 2412, Signal := some (-40), htPrimaryChannel := some "99",
    htSecondaryChannelOffset := some "no secondary", htStaChannelWidth := some "20 MHz" }

/-- A block carrying a full HT annotation with primary channel 1 (in the plan
table) and no bonding. -/
def c7_example_net : RawNet :=
  { freq_20 := some 2412, Signal := some (-40), htPrimaryChannel := some "1",
    htSecondaryChannelOffset := some "no secondary", htStaChannelWidth := some "20 MHz" }

/-- A block whose VHT segment 1 is channel 10 — a 2.4 GHz channel that *is* in
the plan table but is `≤ 32`. -/
def c10_example_net : RawNet :=
  { freq_20 := some 2412, Signal := some (-40), vhtChannelWidth := some "1 (80 MHz)",
    vhtCenterFreqSegment1 := some "10", vhtCenterFreqSegment2 := some "0" }

/-! ## Line classification for the zero-blocks claim -/

/-- Does a Dialect A line (after `replace("\t","").rstrip()`) match any branch
of the tokenizer that writes into `wlans`?  Lines for which this is `false`
are either ignored or only toggle `HTMODE`. -/
def iw_line_writes (rawline : String) : Bool :=
  let line := pyRstrip (pyReplace rawline "\t" "")
  (pyStartsWith line "BSS " && pyContains line "(on ") ||
  pyStartsWith line "freq: " || pyStartsWith line "signal: " ||
  pyStartsWith line "SSID: " || pyStartsWith line "DS Parameter set:" ||
  pyStartsWith line "Country:" || pyStartsWith line "Channels " ||
  pyStartsWith line " * primary channel:" ||
  pyStartsWith line " * secondary channel offset:" ||
  pyStartsWith line " * STA channel width:" ||
  pyStartsWith line " * channel width: " ||
  pyStartsWith line " * center freq segment"

/-- Does a Dialect B line (after `rstrip()`) match the `Address` branch or the
retained-field allow-list?  Lines for which this is `false` are skipped. -/
def iwlist_line_matches (rawline : String) : Bool :=
  let line := pyRstrip rawline
  pyStartsWith line "Address" || iwlist_wordlist.any (fun w => pyStartsWith line w)

/-! # Theorems -/

/-- Claim C9 (confirmed).  In the channel plan table: no two entries share a channel number,
no entry has a channel number in `[70, 94]` (the 5350–5470 MHz unallocated
region), and every entry satisfies `fmin < fmax` with `fmax − fmin` equal to
the entry's bandwidth. -/
theorem C9_plan_invariants :
    (wifi_channel_plan.map (·.channel)).Nodup ∧
    (∀ e ∈ wifi_channel_plan, ¬(70 ≤ e.channel ∧ e.channel ≤ 94)) ∧
    (∀ e ∈ wifi_channel_plan, e.fmin < e.fmax ∧ e.fmax - e.fmin = e.BW) := by
  refine ⟨?_, ?_, ?_⟩ <;> decide

/-- Claim C1 (code bug).  A block whose `freq_20` (5000 MHz) equals no plan-table
center frequency makes the resolver raise an uncaught `IndexError` at
`fplan[fplan.Fc == net["freq_20"]].index[0]` — aborting the whole call instead
of flagging the block and falling back to the raw frequency with 20 MHz
bandwidth as the claim states. -/
theorem C1_out_of_range_crashes :
    planFcFind 5000 = none ∧ resolve_net c1_net = none :=
  ⟨rfl, rfl⟩

/-- Claim C2 (code bug).  A dump whose second block lacks the mandatory `freq:`
field makes the resolution loop raise an uncaught `KeyError` at
`fplan.Fc == net["freq_20"]`, aborting the whole batch (no record is returned
for *any* block), although the same first block alone resolves normally. -/
theorem C2_missing_freq_crashes_batch :
    parse_iw_scan c2_dump_bad = none ∧
    (parse_iw_scan c2_dump_good).map (fun l => l.map (fun r => (r.Fc, r.chanbw))) =
      some [(2412, 20)] :=
  ⟨rfl, rfl⟩

/-- Claim C3, counterexample.  A block with width "any" whose declared primary
channel (40, plan center 5200) differs from the legacy channel derived from
`freq_20 = 5180` (channel 36, center 5180) resolves to center `5200 + 10 =
5210`, not to the legacy center plus 10 (`5190`): the code uses the *declared*
channel's plan center, not the legacy one, so the claim as stated is false. -/
theorem C3_counterexample :
    planFcFind 5180 = some { channel := 36, Fc := 5180, BW := 20, fmin := 5170, fmax := 5190 } ∧
    (resolve_net c3_counter_net).map (fun r => (r.Fc, r.chanbw)) = some (5210, 40) ∧
    (5210 : Int) ≠ 5180 + 10 :=
  ⟨rfl, rfl, by decide⟩

/-- Claim C4, counterexample.  A block whose VHT segment 1 resolves to the 80 MHz
plan channel 42 (center 5210) and segment 2 to the 80 MHz plan channel 58
(center 5290 = 5210 + 80) — exactly the claim's hypothesis — but whose VHT
bandwidth code is 0 resolves to center 5180 and bandwidth 20 (the legacy
estimate), not to center 5250 and bandwidth 160: the claim omits the
`bonding code > 0` requirement guarding the whole VHT branch. -/
theorem C4_counterexample :
    planLoc 42 = some { channel := 42, Fc := 5210, BW := 80, fmin := 5170, fmax := 5250 } ∧
    planLoc 58 = some { channel := 58, Fc := 5290, BW := 80, fmin := 5250, fmax := 5330 } ∧
    (resolve_net c4_counter_net).map (fun r => (r.Fc, r.chanbw)) = some (5180, 20) ∧
    ¬((5180 : Int) = 5210 + 40 ∧ (20 : Int) = 160) :=
  ⟨rfl, rfl, rfl, by decide⟩

/-- Claim C5, counterexample.  A block whose VHT segments 1 and 2 both resolve to
plan channels and are non-contiguous (channel 42, center 5210; channel 155,
center 5775) — the claim's hypothesis — but whose VHT bandwidth code is 0
resolves with *no* `Fc2_VHT` diagnostic field (the VHT branch is skipped
entirely), contradicting the claim that segment 2's center is recorded. -/
theorem C5_counterexample :
    planLoc 42 = some { channel := 42, Fc := 5210, BW := 80, fmin := 5170, fmax := 5250 } ∧
    planLoc 155 = some { channel := 155, Fc := 5775, BW := 80, fmin := 5735, fmax := 5815 } ∧
    (resolve_net c5_counter_net).map (fun r => (r.Fc, r.chanbw, r.Fc2_VHT)) =
      some (5180, 20, none) ∧
    (none : Option Int) ≠ some 5775 :=
  ⟨rfl, rfl, rfl, by decide⟩

/-- Claim C6, counterexample.  In the Dialect B dump `c6_input` the quality field
`60/94` does **not** appear in the parsed record: `Quality` is not in the
retained-field allow-list (`wordlist`, source line 242), so the line is
discarded and no key `Quality` exists in the output, contradicting the claim
that it is converted to `60` and appears as such. -/
theorem C6_counterexample :
    iwlist_wordlist.all (fun w => ¬ pyStartsWith "Quality:60/94" w) = true ∧
    (parse_iwlist_scan c6_input).map (fun l => l.map (fun n => dictGet? n "Quality")) =
      some [none] ∧
    (none : Option BVal) ≠ some (BVal.i 60) :=
  ⟨rfl, rfl, by decide⟩

/-- Claim C6, amended.  Dialect B numeric conversions on `c6_input`: the
frequency field `5.18 GHz` is converted to the integer `5180` (MHz) and
appears in the parsed record, while the quality field `60/94` is *discarded*
(its key is not in the retained-field allow-list), not converted and retained. -/
theorem C6_amended_conversions :
    (parse_iwlist_scan c6_input).map
        (fun l => l.map (fun n => (dictGet? n "Frequency", dictGet? n "Quality"))) =
      some [(some (BVal.i 5180), none)] :=
  rfl

/-- Claim C7, counterexample.  A block carrying the full HT annotation whose
declared primary channel 99 is *not* in the plan table resolves to a record in
which all three HT working keys are still present, contradicting the claim
that the intermediate annotation keys are absent from every output record
whatever the raw block contained. -/
theorem C7_counterexample :
    planLoc 99 = none ∧
    (resolve_net c7_counter_net).map (fun r =>
        (r.net.htPrimaryChannel, r.net.htSecondaryChannelOffset, r.net.htStaChannelWidth)) =
      some (some "99", some "no secondary", some "20 MHz") ∧
    (some "99" : Option String) ≠ none :=
  ⟨rfl, rfl, by decide⟩

/-- Claim C8, counterexample.  The input `"freq: 2412"` contains no block-start
line (zero blocks are recognized), yet `parse_iw_scan` raises an uncaught
`IndexError` (`wlans[-1]` on the empty list) instead of returning an empty
output list. -/
theorem C8_counterexample :
    pyStartsWith "freq: 2412" "BSS " = false ∧ parse_iw_scan "freq: 2412" = none :=
  ⟨rfl, rfl⟩


/-! ## Helper lemmas -/

/-- Successful legacy lookup leaves the dictionary untouched, sets the running
bandwidth to 20 and the running center to the raw frequency. -/
theorem legacy_step_some (net : RawNet) (st : HtState) (h : legacy_step net = some st) :
    st.net = net ∧ st.BW = 20 ∧ net.freq_20 = some st.Fc := by
  unfold legacy_step at h
  split at h
  · exact absurd h (by simp)
  · rename_i f20 hf
    split at h
    · exact absurd h (by simp)
    · split at h
      · exact absurd h (by simp)
      · rw [Option.some.injEq] at h
        subst h
        exact ⟨rfl, rfl, hf⟩

/-- The HT branch never touches the VHT keys or the legacy channel. -/
theorem ht_step_preserves (st st' : HtState) (h : ht_step st = some st') :
    st'.net.vhtChannelWidth = st.net.vhtChannelWidth ∧
    st'.net.vhtCenterFreqSegment1 = st.net.vhtCenterFreqSegment1 ∧
    st'.net.vhtCenterFreqSegment2 = st.net.vhtCenterFreqSegment2 ∧
    st'.channel_20 = st.channel_20 := by
  simp only [ht_step] at h
  split at h
  · rw [Option.some.injEq] at h; subst h; exact ⟨rfl, rfl, rfl, rfl⟩
  · split at h
    · exact absurd h (by simp)
    · split at h
      · rw [Option.some.injEq] at h; subst h; exact ⟨rfl, rfl, rfl, rfl⟩
      · split at h
        · exact absurd h (by simp)
        · split at h
          · exact absurd h (by simp)
          · split at h
            · exact absurd h (by simp)
            · rw [Option.some.injEq] at h
              subst h
              refine ⟨?_, ?_, ?_, rfl⟩ <;> (split <;> rfl)

/-- Without the `"HT primary channel"` key the HT branch is a no-op. -/
theorem ht_step_id (st : HtState) (h : st.net.htPrimaryChannel = none) :
    ht_step st = some st := by
  unfold ht_step
  rw [h]

/-- The HT bonding case: declared channel in the plan, width `"any"` — the
center becomes the declared channel's plan center ± 10 and the bandwidth 40. -/
theorem ht_step_any (st st' : HtState) (ps off : String) (p : Int) (chanp : PlanEntry)
    (h1 : st.net.htPrimaryChannel = some ps) (h2 : pyInt? ps = some p)
    (h3 : planLoc p = some chanp) (h4 : st.net.htStaChannelWidth = some "any")
    (h5 : st.net.htSecondaryChannelOffset = some off)
    (h : ht_step st = some st') :
    st'.BW = 40 ∧ st'.Fc = (chanp.Fc : Int) + (if off = "above" then 10 else -10) := by
  simp only [ht_step, h1, h2, h3] at h
  cases hds : st.net.dsParamSet with
  | none =>
    rw [hds] at h
    simp only [h4, h5, if_true] at h
    rw [Option.some.injEq] at h
    subst h
    exact ⟨rfl, rfl⟩
  | some d =>
    rw [hds] at h
    simp only [h4, h5, if_true] at h
    rw [Option.some.injEq] at h
    subst h
    exact ⟨rfl, rfl⟩

/-- When the declared channel is in the plan table and the branch completes,
all three HT working keys are deleted. -/
theorem ht_step_clears (st st' : HtState) (ps : String) (p : Int) (chanp : PlanEntry)
    (h1 : st.net.htPrimaryChannel = some ps) (h2 : pyInt? ps = some p)
    (h3 : planLoc p = some chanp)
    (h : ht_step st = some st') :
    st'.net.htPrimaryChannel = none ∧ st'.net.htSecondaryChannelOffset = none ∧
    st'.net.htStaChannelWidth = none := by
  simp only [ht_step, h1, h2, h3] at h
  split at h
  · exact absurd h (by simp)
  · split at h
    · exact absurd h (by simp)
    · split at h
      · exact absurd h (by simp)
      · rw [Option.some.injEq] at h
        subst h
        refine ⟨?_, rfl, rfl⟩
        split <;> rfl

/-- Without the `"VHT channel width"` key the VHT branch passes the estimate
through unchanged. -/
theorem vht_step_skip (st : HtState) (h : st.net.vhtChannelWidth = none) :
    vht_step st = some { net := st.net, channel_20 := st.channel_20, BW := st.BW, Fc := st.Fc,
                         freq_40 := st.freq_40, freq_VHT := none, Fc2_VHT := none } := by
  unfold vht_step
  rw [h]

/-- When the parsed segment-1 channel number is `≤ 32`, the VHT branch keeps
the incoming bandwidth and center. -/
theorem vht_step_keep (st : HtState) (ws s1s : String) (s1 : Int)
    (hw : st.net.vhtChannelWidth = some ws) (hs1 : st.net.vhtCenterFreqSegment1 = some s1s)
    (hp : pyInt? s1s = some s1) (h32 : s1 ≤ 32)
    (v : VhtOut) (h : vht_step st = some v) :
    v.BW = st.BW ∧ v.Fc = st.Fc := by
  simp only [vht_step, hw, hs1, hp] at h
  cases hc : vht_code? ws with
  | none => rw [hc] at h; exact absurd h (by simp)
  | some code =>
    simp only [hc] at h
    have hng : ¬(s1 > 32 ∧ code > 0) := fun hcon => absurd hcon.1 (by omega)
    cases hpl : planLoc s1 with
    | none =>
      simp only [hpl] at h
      split at h
      · exact absurd h (by simp)
      · rw [Option.some.injEq] at h; subst h; exact ⟨rfl, rfl⟩
    | some e =>
      simp only [hpl, if_neg hng] at h
      split at h
      · exact absurd h (by simp)
      · rw [Option.some.injEq] at h; subst h; exact ⟨rfl, rfl⟩

/-- The fully applicable two-segment VHT case, covering the native-160 MHz,
contiguous-80 MHz and non-contiguous sub-cases exactly as the source orders
them. -/
theorem vht_step_two_segments (st : HtState) (ws s1s s2s : String) (code : Nat)
    (s1 s2 : Int) (e1 e2 : PlanEntry)
    (hw : st.net.vhtChannelWidth = some ws) (hc : vht_code? ws = some code) (hcpos : 0 < code)
    (hs1 : st.net.vhtCenterFreqSegment1 = some s1s) (hp1 : pyInt? s1s = some s1)
    (hpl1 : planLoc s1 = some e1) (h32 : 32 < s1)
    (hs2 : st.net.vhtCenterFreqSegment2 = some s2s) (hp2 : pyInt? s2s = some s2)
    (hpl2 : planLoc s2 = some e2)
    (v : VhtOut) (h : vht_step st = some v) :
    v.BW = (if e2.BW = 160 then 160
            else if e2.BW = 80 ∧ (e2.Fc : Int) = (e1.Fc : Int) + 80 then 160
            else if code = 1 then (80 : Int) else 160) ∧
    v.Fc = (if e2.BW = 160 then (e2.Fc : Int)
            else if e2.BW = 80 ∧ (e2.Fc : Int) = (e1.Fc : Int) + 80 then (e1.Fc : Int) + 40
            else (e1.Fc : Int)) ∧
    v.Fc2_VHT = (if e2.BW = 160 then none
                 else if e2.BW = 80 ∧ (e2.Fc : Int) = (e1.Fc : Int) + 80 then none
                 else some (e2.Fc : Int)) := by
  simp only [vht_step, hw, hs1, hc, hp1, hpl1, hs2, hp2, hpl2] at h
  rw [if_pos (⟨h32, hcpos⟩ : s1 > 32 ∧ code > 0)] at h
  by_cases h160 : e2.BW = 160
  · simp only [h160, if_pos, if_true] at h
    rw [Option.some.injEq] at h
    subst h
    simp [h160]
  · by_cases hcontig : e2.BW = 80 ∧ (e2.Fc : Int) = (e1.Fc : Int) + 80
    · simp only [if_neg h160, if_pos hcontig] at h
      rw [Option.some.injEq] at h
      subst h
      simp [h160, hcontig]
    · simp only [if_neg h160, if_neg hcontig] at h
      rw [Option.some.injEq] at h
      subst h
      simp [h160, hcontig]

/-- Whenever both the width and segment-1 keys are present and the branch
completes, all three VHT working keys are deleted. -/
theorem vht_step_clears (st : HtState) (ws s1s : String)
    (hw : st.net.vhtChannelWidth = some ws) (hs1 : st.net.vhtCenterFreqSegment1 = some s1s)
    (v : VhtOut) (h : vht_step st = some v) :
    v.net.vhtChannelWidth = none ∧ v.net.vhtCenterFreqSegment1 = none ∧
    v.net.vhtCenterFreqSegment2 = none := by
  simp only [vht_step, hw, hs1] at h
  split at h
  · exact absurd h (by simp)
  · split at h
    · exact absurd h (by simp)
    · split at h
      · exact absurd h (by simp)
      · split at h
        · exact absurd h (by simp)
        · rw [Option.some.injEq] at h
          subst h
          exact ⟨rfl, rfl, rfl⟩

/-- The VHT branch never touches the HT keys. -/
theorem vht_step_preserves_ht (st : HtState) (v : VhtOut) (h : vht_step st = some v) :
    v.net.htPrimaryChannel = st.net.htPrimaryChannel ∧
    v.net.htSecondaryChannelOffset = st.net.htSecondaryChannelOffset ∧
    v.net.htStaChannelWidth = st.net.htStaChannelWidth := by
  simp only [vht_step] at h
  split at h
  · split at h
    · exact absurd h (by simp)
    · split at h
      · exact absurd h (by simp)
      · split at h
        · exact absurd h (by simp)
        · split at h
          · exact absurd h (by simp)
          · rw [Option.some.injEq] at h
            subst h
            exact ⟨rfl, rfl, rfl⟩
  · rw [Option.some.injEq] at h
    subst h
    exact ⟨rfl, rfl, rfl⟩

/-- Splitting a successful resolution into its three phases. -/
theorem resolve_net_decomp (net : RawNet) (r : ResolvedNet) (h : resolve_net net = some r) :
    ∃ st v, ht_estimate net = some st ∧ vht_step st = some v ∧ r = finalize_net v := by
  unfold resolve_net at h
  rw [Option.bind_eq_some] at h
  obtain ⟨st, hst, h⟩ := h
  rw [Option.map_eq_some'] at h
  obtain ⟨v, hv, hr⟩ := h
  exact ⟨st, v, hst, hv, hr.symm⟩

/-- Every 80 MHz entry of the plan table has a channel number above 32. -/
theorem plan_bw80_gt32 : ∀ e ∈ wifi_channel_plan, e.BW = 80 → 32 < e.channel := by
  decide

/-- A successful `planLoc` lookup returns an entry with the requested channel
number. -/
theorem planLoc_channel (c : Int) (e : PlanEntry) (h : planLoc c = some e) :
    (e.channel : Int) = c ∧ e ∈ wifi_channel_plan := by
  refine ⟨?_, List.mem_of_find?_eq_some h⟩
  have := List.find?_some h
  simpa using this

/-- A line whose processed form matches no write-branch leaves the (empty)
block list untouched; it can at most toggle `HTMODE`. -/
theorem iw_step_inert (l : String) (h : iw_line_writes l = false) (m : Nat) :
    ∃ m', iw_step ⟨[], m⟩ l = some ⟨[], m'⟩ := by
  unfold iw_line_writes at h
  simp only [Bool.or_eq_false_iff, and_assoc] at h
  obtain ⟨h1, h2, h3, h4, h5, h6, h7, h8, h9, h10, h11, h12⟩ := h
  unfold iw_step
  simp only [h1, h2, h3, h4, h5, h6, h7, h8, h9, h10, h11, h12, Bool.false_eq_true, if_false,
             Bool.or_self, Bool.and_false, Bool.false_and, Bool.or_false, Bool.false_or]
  by_cases hht : pyRstrip (pyReplace l "\t" "") = "HT operation:"
  · exact ⟨1, by rw [if_pos hht]⟩
  · rw [if_neg hht]
    by_cases hvht : pyRstrip (pyReplace l "\t" "") = "VHT operation:"
    · exact ⟨2, by rw [if_pos hvht]⟩
    · exact ⟨m, by rw [if_neg hvht]⟩

/-- Folding only write-free lines from an empty block list yields an empty
block list. -/
theorem iw_lines_inert : ∀ (ls : List String), (∀ l ∈ ls, iw_line_writes l = false) →
    ∀ m, ∃ m', iw_lines ⟨[], m⟩ ls = some ⟨[], m'⟩
  | [], _, m => ⟨m, rfl⟩
  | l :: ls, h, m => by
    obtain ⟨m1, h1⟩ := iw_step_inert l (h l (List.mem_cons_self l ls)) m
    obtain ⟨m2, h2⟩ := iw_lines_inert ls (fun x hx => h x (List.mem_cons_of_mem l hx)) m1
    exact ⟨m2, by simp only [iw_lines, h1]; exact h2⟩

/-- A Dialect B line matching neither the `Address` branch nor the allow-list
is skipped. -/
theorem iwlist_step_inert (nets : List BNet) (l : String) (h : iwlist_line_matches l = false) :
    iwlist_step nets l = some nets := by
  unfold iwlist_line_matches at h
  simp only [Bool.or_eq_false_iff] at h
  obtain ⟨h1, h2⟩ := h
  unfold iwlist_step
  simp [h1, h2]

/-- Folding only non-matching Dialect B lines leaves the block list unchanged. -/
theorem iwlist_fold_inert : ∀ (ls : List String) (nets : List BNet),
    (∀ l ∈ ls, iwlist_line_matches l = false) → iwlist_fold nets ls = some nets
  | [], _, _ => rfl
  | l :: ls, nets, h => by
    simp only [iwlist_fold, iwlist_step_inert nets l (h l (List.mem_cons_self l ls))]
    exact iwlist_fold_inert ls nets (fun x hx => h x (List.mem_cons_of_mem l hx))

/-- Claim C3, amended.  For every block carrying an HT annotation whose
station-channel-width is "any" and whose *declared* primary channel is in the
plan table, carrying no VHT width annotation, and whose resolution completes:
the resolved center frequency equals the declared primary channel's plan-table
center frequency plus 10 MHz when the secondary-channel-offset is "above" and
minus 10 MHz otherwise, with bandwidth 40 MHz.  (The original claim said "the
legacy channel's center frequency"; the code uses the declared channel's plan
center, which coincides with the legacy one only when the cross-check holds —
see the counterexample.) -/
theorem C3_amended_ht_bonding (net : RawNet) (r : ResolvedNet) (ps off : String)
    (p : Int) (chanp : PlanEntry)
    (h1 : net.htPrimaryChannel = some ps) (h2 : pyInt? ps = some p)
    (h3 : planLoc p = some chanp) (h4 : net.htStaChannelWidth = some "any")
    (h5 : net.htSecondaryChannelOffset = some off)
    (h6 : net.vhtChannelWidth = none)
    (h : resolve_net net = some r) :
    r.Fc = (chanp.Fc : Int) + (if off = "above" then 10 else -10) ∧ r.chanbw = 40 := by
  obtain ⟨st, v, hst, hv, hr⟩ := resolve_net_decomp net r h
  rw [ht_estimate, Option.bind_eq_some] at hst
  obtain ⟨st0, hl, hh⟩ := hst
  obtain ⟨hnet0, _, _⟩ := legacy_step_some net st0 hl
  rw [← hnet0] at h1 h4 h5 h6
  obtain ⟨hBW, hFc⟩ := ht_step_any st0 st ps off p chanp h1 h2 h3 h4 h5 hh
  obtain ⟨hvw, _, _, _⟩ := ht_step_preserves st0 st hh
  have hvnone : st.net.vhtChannelWidth = none := by rw [hvw, h6]
  rw [vht_step_skip st hvnone, Option.some.injEq] at hv
  subst hv
  subst hr
  exact ⟨hFc, hBW⟩

/-- Witness for the amended C3 — the claim's "in particular" instance: primary
channel 36 (center 5180), width "any", offset "above" resolves to center 5190
and bandwidth 40. -/
theorem C3_amended_witness :
    (resolve_net c3_example_net).map (fun r => (r.Fc, r.chanbw)) = some (5190, 40) := by
  cases hres : resolve_net c3_example_net with
  | none => exact absurd hres (by decide)
  | some r =>
    have hthm := C3_amended_ht_bonding c3_example_net r "36" "above" 36
      { channel := 36, Fc := 5180, BW := 20, fmin := 5170, fmax := 5190 }
      rfl (by decide) (by decide) rfl rfl rfl hres
    simp only [Option.map, Option.map.eq_1, hthm.1, hthm.2]
    norm_num

/-- Claim C4, amended.  For every block carrying a VHT annotation with
*positive* bandwidth code whose segment 1 resolves to an 80 MHz plan-table
channel and whose segment 2 resolves to an 80 MHz plan-table channel with
center exactly 80 MHz above segment 1's center, a completed resolution forces
bandwidth 160 MHz and center = segment-1 center + 40 MHz — whatever HT
annotation the block also carried (the VHT estimate overrides the HT one). -/
theorem C4_amended_vht160 (net : RawNet) (r : ResolvedNet) (ws s1s s2s : String)
    (code : Nat) (s1 s2 : Int) (e1 e2 : PlanEntry)
    (hw : net.vhtChannelWidth = some ws) (hc : vht_code? ws = some code) (hcpos : 0 < code)
    (hs1 : net.vhtCenterFreqSegment1 = some s1s) (hp1 : pyInt? s1s = some s1)
    (hpl1 : planLoc s1 = some e1) (he1 : e1.BW = 80)
    (hs2 : net.vhtCenterFreqSegment2 = some s2s) (hp2 : pyInt? s2s = some s2)
    (hpl2 : planLoc s2 = some e2) (he2 : e2.BW = 80)
    (hcontig : e2.Fc = e1.Fc + 80)
    (h : resolve_net net = some r) :
    r.Fc = (e1.Fc : Int) + 40 ∧ r.chanbw = 160 := by
  obtain ⟨st, v, hst, hv, hr⟩ := resolve_net_decomp net r h
  rw [ht_estimate, Option.bind_eq_some] at hst
  obtain ⟨st0, hl, hh⟩ := hst
  obtain ⟨hnet0, _, _⟩ := legacy_step_some net st0 hl
  obtain ⟨hvw, hvs1, hvs2, _⟩ := ht_step_preserves st0 st hh
  rw [hnet0] at hvw hvs1 hvs2
  have h32 : 32 < s1 := by
    obtain ⟨hchan, hmem⟩ := planLoc_channel s1 e1 hpl1
    have hgt : 32 < e1.channel := plan_bw80_gt32 e1 hmem he1
    have : (32 : Int) < (e1.channel : Int) := by exact_mod_cast hgt
    rw [hchan] at this
    exact this
  have hcontigInt : (e2.Fc : Int) = (e1.Fc : Int) + 80 := by exact_mod_cast hcontig
  have h160 : ¬(e2.BW = 160) := by rw [he2]; decide
  obtain ⟨hBW, hFc, _⟩ := vht_step_two_segments st ws s1s s2s code s1 s2 e1 e2
    (hvw.trans hw) hc hcpos (hvs1.trans hs1) hp1 hpl1 h32 (hvs2.trans hs2) hp2 hpl2 v hv
  rw [if_neg h160, if_pos ⟨he2, hcontigInt⟩] at hBW hFc
  subst hr
  exact ⟨hFc, hBW⟩

/-- Witness for the amended C4: code 1, segment 1 = channel 42 (center 5210),
segment 2 = channel 58 (center 5290 = 5210 + 80) resolves to center 5250 and
bandwidth 160. -/
theorem C4_amended_witness :
    (resolve_net c4_example_net).map (fun r => (r.Fc, r.chanbw)) = some (5250, 160) := by
  cases hres : resolve_net c4_example_net with
  | none => exact absurd hres (by decide)
  | some r =>
    have hthm := C4_amended_vht160 c4_example_net r "1 (80 MHz)" "42" "58" 1 42 58
      { channel := 42, Fc := 5210, BW := 80, fmin := 5170, fmax := 5250 }
      { channel := 58, Fc := 5290, BW := 80, fmin := 5250, fmax := 5330 }
      rfl (by decide) (by decide) rfl (by decide) (by decide) rfl rfl (by decide) (by decide)
      rfl (by decide) hres
    simp only [Option.map, Option.map.eq_1, hthm.1, hthm.2]
    norm_num

/-- Claim C5, amended.  For every block carrying a VHT annotation with
*positive* bandwidth code and segment-1 channel above 32, whose segments 1 and
2 both resolve to plan-table channels but non-contiguously (segment 2 neither
a 160 MHz channel nor an 80 MHz channel centered exactly 80 MHz above
segment 1), a completed resolution keeps the segment-1 estimate (center =
segment-1 plan center, bandwidth 80 for code 1 and 160 otherwise) and records
segment 2's center frequency in the `Fc2_VHT` diagnostic field of the record. -/
theorem C5_amended_noncontiguous (net : RawNet) (r : ResolvedNet) (ws s1s s2s : String)
    (code : Nat) (s1 s2 : Int) (e1 e2 : PlanEntry)
    (hw : net.vhtChannelWidth = some ws) (hc : vht_code? ws = some code) (hcpos : 0 < code)
    (hs1 : net.vhtCenterFreqSegment1 = some s1s) (hp1 : pyInt? s1s = some s1)
    (hpl1 : planLoc s1 = some e1) (h32 : 32 < s1)
    (hs2 : net.vhtCenterFreqSegment2 = some s2s) (hp2 : pyInt? s2s = some s2)
    (hpl2 : planLoc s2 = some e2)
    (h160 : ¬(e2.BW = 160))
    (hnc : ¬(e2.BW = 80 ∧ (e2.Fc : Int) = (e1.Fc : Int) + 80))
    (h : resolve_net net = some r) :
    r.Fc = (e1.Fc : Int) ∧ r.chanbw = (if code = 1 then (80 : Int) else 160) ∧
    r.Fc2_VHT = some (e2.Fc : Int) := by
  obtain ⟨st, v, hst, hv, hr⟩ := resolve_net_decomp net r h
  rw [ht_estimate, Option.bind_eq_some] at hst
  obtain ⟨st0, hl, hh⟩ := hst
  obtain ⟨hnet0, _, _⟩ := legacy_step_some net st0 hl
  obtain ⟨hvw, hvs1, hvs2, _⟩ := ht_step_preserves st0 st hh
  rw [hnet0] at hvw hvs1 hvs2
  obtain ⟨hBW, hFc, hd⟩ := vht_step_two_segments st ws s1s s2s code s1 s2 e1 e2
    (hvw.trans hw) hc hcpos (hvs1.trans hs1) hp1 hpl1 h32 (hvs2.trans hs2) hp2 hpl2 v hv
  rw [if_neg h160, if_neg hnc] at hBW hFc hd
  subst hr
  exact ⟨hFc, hBW, hd⟩

/-- Witness for the amended C5: code 1, segment 1 = channel 42 (center 5210),
segment 2 = channel 155 (center 5775, non-contiguous) resolves to center 5210,
bandwidth 80, with `Fc2_VHT = 5775`. -/
theorem C5_amended_witness :
    (resolve_net c5_example_net).map (fun r => (r.Fc, r.chanbw, r.Fc2_VHT)) =
      some (5210, 80, some 5775) := by
  cases hres : resolve_net c5_example_net with
  | none => exact absurd hres (by decide)
  | some r =>
    have hthm := C5_amended_noncontiguous c5_example_net r "1 (80 MHz)" "42" "155" 1 42 155
      { channel := 42, Fc := 5210, BW := 80, fmin := 5170, fmax := 5250 }
      { channel := 155, Fc := 5775, BW := 80, fmin := 5735, fmax := 5815 }
      rfl (by decide) (by decide) rfl (by decide) (by decide) (by decide)
      rfl (by decide) (by decide) (by decide) (by decide) hres
    simp only [Option.map, Option.map.eq_1, hthm.1, hthm.2.1, hthm.2.2]
    norm_num

/-- Claim C10 (confirmed).  The VHT resolution branch applies only when the
segment-1 channel number is strictly greater than 32: for every block whose
VHT segment-1 value parses to at most 32 (even if that channel exists in the
plan table, e.g. a 2.4 GHz channel), a completed resolution keeps the HT or
legacy estimate (`ht_estimate`) of center frequency and bandwidth. -/
theorem C10_vht_guard (net : RawNet) (r : ResolvedNet) (st : HtState) (ws s1s : String)
    (s1 : Int)
    (hw : net.vhtChannelWidth = some ws) (hs1 : net.vhtCenterFreqSegment1 = some s1s)
    (hp : pyInt? s1s = some s1) (h32 : s1 ≤ 32)
    (hst : ht_estimate net = some st)
    (h : resolve_net net = some r) :
    r.Fc = st.Fc ∧ r.chanbw = st.BW := by
  obtain ⟨st2, v, hst2, hv, hr⟩ := resolve_net_decomp net r h
  have hsteq : st2 = st := Option.some.inj (hst2.symm.trans hst)
  subst hsteq
  rw [ht_estimate, Option.bind_eq_some] at hst2
  obtain ⟨st0, hl, hh⟩ := hst2
  obtain ⟨hnet0, _, _⟩ := legacy_step_some net st0 hl
  obtain ⟨hvw, hvs1, _, _⟩ := ht_step_preserves st0 st2 hh
  rw [hnet0] at hvw hvs1
  obtain ⟨hBW, hFc⟩ := vht_step_keep st2 ws s1s s1 (hvw.trans hw) (hvs1.trans hs1) hp h32 v hv
  subst hr
  exact ⟨hFc, hBW⟩

/-- Witness for C10: segment 1 = channel 10 (a 2.4 GHz channel that *is* in
the plan table) with bandwidth code 1 leaves the legacy estimate (2412 MHz,
20 MHz) untouched. -/
theorem C10_witness :
    (resolve_net c10_example_net).map (fun r => (r.Fc, r.chanbw)) = some (2412, 20) := by
  cases hres : resolve_net c10_example_net with
  | none => exact absurd hres (by decide)
  | some r =>
    have hthm := C10_vht_guard c10_example_net r
      { net := c10_example_net, channel_20 := 1, BW := 20, Fc := 2412, freq_40 := none }
      "1 (80 MHz)" "10" 10 rfl rfl (by decide) (by decide) (by decide) hres
    simp only [Option.map, Option.map.eq_1, hthm.1, hthm.2]

/-- Claim C7, amended.  For every record output by the resolver from a block
in which the HT annotation keys are either all absent or come with a declared
primary channel that parses and is in the plan table, and in which a VHT width
key is present exactly when a segment-1 key is (with no orphan segment keys),
all six intermediate working-only annotation keys are absent from the final
record.  (The original claim's "whatever combination of those keys" fails: a
declared primary channel outside the plan table leaves the HT keys in place —
see the counterexample.) -/
theorem C7_amended_key_drop (net : RawNet) (r : ResolvedNet)
    (hHT : (net.htPrimaryChannel = none ∧ net.htSecondaryChannelOffset = none ∧
            net.htStaChannelWidth = none) ∨
           (∃ ps p chanp, net.htPrimaryChannel = some ps ∧ pyInt? ps = some p ∧
              planLoc p = some chanp))
    (hVHT : (net.vhtChannelWidth = none ∧ net.vhtCenterFreqSegment1 = none ∧
             net.vhtCenterFreqSegment2 = none) ∨
            (∃ ws s1s, net.vhtChannelWidth = some ws ∧ net.vhtCenterFreqSegment1 = some s1s))
    (h : resolve_net net = some r) :
    r.net.htPrimaryChannel = none ∧ r.net.htSecondaryChannelOffset = none ∧
    r.net.htStaChannelWidth = none ∧ r.net.vhtChannelWidth = none ∧
    r.net.vhtCenterFreqSegment1 = none ∧ r.net.vhtCenterFreqSegment2 = none := by
  obtain ⟨st, v, hst, hv, hr⟩ := resolve_net_decomp net r h
  rw [ht_estimate, Option.bind_eq_some] at hst
  obtain ⟨st0, hl, hh⟩ := hst
  obtain ⟨hnet0, _, _⟩ := legacy_step_some net st0 hl
  have hHTkeys : st.net.htPrimaryChannel = none ∧ st.net.htSecondaryChannelOffset = none ∧
      st.net.htStaChannelWidth = none := by
    rcases hHT with ⟨ha, hb, hc⟩ | ⟨ps, p, chanp, hps, hp, hpl⟩
    · have hid := ht_step_id st0 (by rw [hnet0]; exact ha)
      have heq : st0 = st := Option.some.inj (hid.symm.trans hh)
      rw [← heq, hnet0]
      exact ⟨ha, hb, hc⟩
    · exact ht_step_clears st0 st ps p chanp (by rw [hnet0]; exact hps) hp hpl hh
  obtain ⟨hvw, hvs1, hvs2, _⟩ := ht_step_preserves st0 st hh
  rw [hnet0] at hvw hvs1 hvs2
  subst hr
  rcases hVHT with ⟨va, vb, vc⟩ | ⟨ws, s1s, hws, hs1s⟩
  · have hskip := vht_step_skip st (by rw [hvw]; exact va)
    obtain rfl : ({ net := st.net, channel_20 := st.channel_20, BW := st.BW, Fc := st.Fc,
                    freq_40 := st.freq_40, freq_VHT := none, Fc2_VHT := none } : VhtOut) = v :=
      Option.some.inj (hskip.symm.trans hv)
    refine ⟨hHTkeys.1, hHTkeys.2.1, hHTkeys.2.2, ?_, ?_, ?_⟩
    · show st.net.vhtChannelWidth = none
      rw [hvw]; exact va
    · show st.net.vhtCenterFreqSegment1 = none
      rw [hvs1]; exact vb
    · show st.net.vhtCenterFreqSegment2 = none
      rw [hvs2]; exact vc
  · obtain ⟨c1, c2, c3⟩ := vht_step_clears st ws s1s (by rw [hvw]; exact hws)
      (by rw [hvs1]; exact hs1s) v hv
    obtain ⟨p1, p2, p3⟩ := vht_step_preserves_ht st v hv
    exact ⟨p1.trans hHTkeys.1, p2.trans hHTkeys.2.1, p3.trans hHTkeys.2.2, c1, c2, c3⟩

/-- Witness for the amended C7: a block with HT primary channel 1 (in the
plan) and a full HT annotation resolves to a record with all six working keys
absent. -/
theorem C7_amended_witness :
    (resolve_net c7_example_net).map (fun r =>
      (r.net.htPrimaryChannel, r.net.htSecondaryChannelOffset, r.net.htStaChannelWidth,
       r.net.vhtChannelWidth, r.net.vhtCenterFreqSegment1, r.net.vhtCenterFreqSegment2)) =
    some (none, none, none, none, none, none) := by
  cases hres : resolve_net c7_example_net with
  | none => exact absurd hres (by decide)
  | some r =>
    have hthm := C7_amended_key_drop c7_example_net r
      (Or.inr ⟨"1", 1, { channel := 1, Fc := 2412, BW := 20, fmin := 2402, fmax := 2422 },
        rfl, by decide, by decide⟩)
      (Or.inl ⟨rfl, rfl, rfl⟩) hres
    simp only [Option.map, Option.map.eq_1, hthm.1, hthm.2.1, hthm.2.2.1, hthm.2.2.2.1,
      hthm.2.2.2.2.1, hthm.2.2.2.2.2]

/-- Claim C8, amended.  Each dialect parser returns an empty output list and
does not raise for every input text in which zero access-point blocks are
recognized *and* no recognized per-block field line occurs (including the
empty string and text of arbitrary unrecognized lines).  (The original claim's
"text containing only non-block lines" fails when a field line such as
`freq: 2412` precedes any block start — see the counterexample.) -/
theorem C8_amended_zero_blocks :
    (∀ s : String, (∀ l ∈ pySplitlines s, iw_line_writes l = false) →
        parse_iw_scan s = some []) ∧
    (∀ s : String, (∀ l ∈ parse_iwlist_lines s, iwlist_line_matches l = false) →
        parse_iwlist_scan s = some []) := by
  constructor
  · intro s h
    obtain ⟨m', hm⟩ := iw_lines_inert (pySplitlines s) h 0
    unfold parse_iw_scan
    rw [hm]
    rfl
  · intro s h
    unfold parse_iwlist_scan
    rw [iwlist_fold_inert (parse_iwlist_lines s) [] h]
    rfl

/-- Witness for the amended C8: the empty string yields an empty output list
from both dialect parsers. -/
theorem C8_amended_witness :
    parse_iw_scan "" = some [] ∧ parse_iwlist_scan "" = some [] :=
  ⟨C8_amended_zero_blocks.1 "" (by decide), C8_amended_zero_blocks.2 "" (by decide)⟩
